import Mathlib

set_option maxRecDepth 16384

/-!
# Verification of the AI-IDS feature-extraction / classification pipeline

Shallow embedding of the core pipeline of `ai_ids_web_portable.py`
(class `WebIDSApp`) and of `src/deploy_model.py` (class `IntrusionDetector`):

* `parse_ip_packet`        — the packet-ingestion parser (lines 319-361);
* `encode_protocol`, `encode_service` — categorical encoders (lines 222-235);
* `extract_packet_features` — windowed feature extraction (lines 132-220),
  returning the feature dict as an insertion-ordered association list;
* `ai_detect_threats`, `detect_threats`, `monitor_step` — the AI detection
  path and one iteration of `real_monitoring_loop` (lines 237-271, 363-379,
  521-545), with the mutable `WebIDSApp` attributes the loop touches modelled
  as an explicit `IDSState` record threaded through each call;
* `load_ai_model`           — model loading of the web app (lines 111-130);
* `IntrusionDetector.init`  — construction of the standalone detector
  (`deploy_model.py` lines 15-35), whose `_load_model` re-raises on failure,
  modelled with `Except`.

Numeric fields are modelled over `ℚ` (exact arithmetic): Python's `/` on the
small integer counts involved is IEEE division, which the rational embedding
idealises; Python integers are exact and match `ℕ`/`ℚ` directly.  The outcome
of `joblib.load` (an opaque external artifact) is an `Option Model` parameter:
`none` models the call raising (file missing / unreadable), `some m` a
successful load of a model with predict function `m`.  A caught Python
exception is modelled by the branch the `except` clause returns
(`None` / `[]` / `False`); totality of the Lean functions witnesses that no
exception escapes.
-/

namespace AIIDS

/-- An IPv4 address as its four dotted-quad components (what
`socket.inet_ntoa` renders; equality of the rendered strings coincides with
equality of the quadruples). -/
abbrev IPv4 := Nat × Nat × Nat × Nat

/-- The `packet_info` dict built by `WebIDSApp.parse_ip_packet` and consumed
by feature extraction: one observed network event. -/
structure PacketInfo where
  src_ip : IPv4
  dst_ip : IPv4
  src_port : Nat
  dst_port : Nat
  protocol : Nat
  timestamp : ℚ
  deriving DecidableEq, Repr

/-- The IP-header slice taken by `parse_ip_packet`: `packet[:20]` on Windows
raw sockets, `packet[14:34]` on Linux (skipping the ethernet header). -/
def ipHeaderSlice (isWindows : Bool) (packet : List Nat) : List Nat :=
  if isWindows then packet.take 20 else (packet.drop 14).take 20

/-- The transport-header slice `packet[hl:hl+4]` (Windows) or
`packet[14+hl:14+hl+4]` (Linux), `hl` the IP header length in bytes. -/
def transportSlice (isWindows : Bool) (packet : List Nat) (hl : Nat) : List Nat :=
  if isWindows then (packet.drop hl).take 4 else (packet.drop (14 + hl)).take 4

/-- `WebIDSApp.parse_ip_packet` (lines 319-361).  `struct.unpack` on a slice
shorter than 20 bytes raises `struct.error`, which the surrounding
`try/except` turns into `None`; only IPv4 (`version == 4`) is accepted.  For
TCP/UDP (protocol 6/17) the ports are read from the transport slice when it
has at least 4 bytes, and stay 0 otherwise.  `now` is `time.time()`. -/
def parse_ip_packet (isWindows : Bool) (packet : List Nat) (now : ℚ) :
    Option PacketInfo :=
  let hdr := ipHeaderSlice isWindows packet
  if hdr.length = 20 then
    let version := hdr.getD 0 0 / 16
    let ihl := hdr.getD 0 0 % 16
    if version = 4 then
      let protocol := hdr.getD 9 0
      let src_ip : IPv4 := (hdr.getD 12 0, hdr.getD 13 0, hdr.getD 14 0, hdr.getD 15 0)
      let dst_ip : IPv4 := (hdr.getD 16 0, hdr.getD 17 0, hdr.getD 18 0, hdr.getD 19 0)
      let th := transportSlice isWindows packet (ihl * 4)
      let ports :=
        if protocol = 6 ∨ protocol = 17 then
          if 4 ≤ th.length then
            (th.getD 0 0 * 256 + th.getD 1 0, th.getD 2 0 * 256 + th.getD 3 0)
          else (0, 0)
        else (0, 0)
      some { src_ip := src_ip, dst_ip := dst_ip, src_port := ports.1,
             dst_port := ports.2, protocol := protocol, timestamp := now }
    else none
  else none

/-- `WebIDSApp.encode_protocol` (lines 222-225): `{1: 1, 6: 2, 17: 3}` with
default 0. -/
def encode_protocol (protocol_num : Nat) : Nat :=
  if protocol_num = 1 then 1
  else if protocol_num = 6 then 2
  else if protocol_num = 17 then 3
  else 0

/-- `WebIDSApp.encode_service` (lines 227-235): the fixed port → service-id
map with default 0. -/
def encode_service (port : Nat) : Nat :=
  if port = 21 then 1 else if port = 22 then 2 else if port = 23 then 3
  else if port = 25 then 4 else if port = 53 then 5 else if port = 80 then 6
  else if port = 110 then 7 else if port = 143 then 8 else if port = 443 then 9
  else if port = 993 then 10 else if port = 995 then 11 else if port = 135 then 12
  else if port = 139 then 13 else if port = 445 then 14 else if port = 1433 then 15
  else if port = 3389 then 16 else if port = 5900 then 17 else if port = 6379 then 18
  else 0

/-- The last `n` elements of a list: Python's `lst[-n:]`. -/
def takeLast (n : Nat) (l : List α) : List α := l.drop (l.length - n)

/-- `list(recent_packets_list)[-100:]` — the trailing window of at most 100
events consulted by the traffic-analysis features. -/
def window100 (recent : List PacketInfo) : List PacketInfo := takeLast 100 recent

/-- `same_src_count` (line 169): events in the window sharing `src_ip`. -/
def same_src_count (pi : PacketInfo) (recent : List PacketInfo) : Nat :=
  (window100 recent).countP (fun p => p.src_ip = pi.src_ip)

/-- `same_service_count` (line 173): events in the window sharing `dst_port`. -/
def same_service_count (pi : PacketInfo) (recent : List PacketInfo) : Nat :=
  (window100 recent).countP (fun p => p.dst_port = pi.dst_port)

/-- `same_srv_from_src` (line 184): events in the window sharing both
`src_ip` and `dst_port`. -/
def same_srv_from_src (pi : PacketInfo) (recent : List PacketInfo) : Nat :=
  (window100 recent).countP (fun p => p.src_ip = pi.src_ip ∧ p.dst_port = pi.dst_port)

/-- `dst_host_connections` (line 197): events in the window sharing `dst_ip`. -/
def dst_host_connections (pi : PacketInfo) (recent : List PacketInfo) : Nat :=
  (window100 recent).countP (fun p => p.dst_ip = pi.dst_ip)

/-- The 22 features set unconditionally at the top of
`extract_packet_features` (lines 141-162), in dict insertion order. -/
def base_features (pi : PacketInfo) : List (String × ℚ) :=
  [("duration", 0),
   ("protocol_type", (encode_protocol pi.protocol : ℚ)),
   ("service", (encode_service pi.dst_port : ℚ)),
   ("flag", 1), ("src_bytes", 0), ("dst_bytes", 0),
   ("land", if pi.src_ip = pi.dst_ip then 1 else 0),
   ("wrong_fragment", 0), ("urgent", 0), ("hot", 0),
   ("num_failed_logins", 0), ("logged_in", 0), ("num_compromised", 0),
   ("root_shell", 0), ("su_attempted", 0), ("num_root", 0),
   ("num_file_creations", 0), ("num_shells", 0), ("num_access_files", 0),
   ("num_outbound_cmds", 0), ("is_host_login", 0), ("is_guest_login", 0)]

/-- `WebIDSApp.extract_packet_features` (lines 132-220) on a (truthy)
`packet_info` dict, returning the feature dict as an association list in the
dict's insertion order.  The `if recent_packets_list:` truthiness test is the
emptiness test on the history; counts and rates follow the source exactly
(`min` caps, division guarded by `same_src_count > 0`, `max(..., 1)`
denominator and `max(0, ...)` floor for the host-based rates). -/
def extract_packet_features (pi : PacketInfo) (recent : List PacketInfo) :
    List (String × ℚ) :=
  if recent.isEmpty then
    base_features pi ++
      [("count", 0), ("srv_count", 0), ("serror_rate", 0), ("srv_serror_rate", 0),
       ("rerror_rate", 0), ("srv_rerror_rate", 0), ("same_srv_rate", 0),
       ("diff_srv_rate", 0), ("srv_diff_host_rate", 0), ("dst_host_count", 0),
       ("dst_host_srv_count", 0), ("dst_host_same_srv_rate", 0),
       ("dst_host_diff_srv_rate", 0), ("dst_host_same_src_port_rate", 0),
       ("dst_host_srv_diff_host_rate", 0), ("dst_host_serror_rate", 0),
       ("dst_host_srv_serror_rate", 0), ("dst_host_rerror_rate", 0),
       ("dst_host_srv_rerror_rate", 0)]
  else
    let n := same_src_count pi recent
    let a := same_srv_from_src pi recent
    let srv := same_service_count pi recent
    let dh := dst_host_connections pi recent
    let same_srv_rate : ℚ := if 0 < n then (a : ℚ) / (n : ℚ) else 0
    let diff_srv_rate : ℚ := if 0 < n then ((n : ℚ) - (a : ℚ)) / (n : ℚ) else 0
    let dst_host_same_srv_rate : ℚ := (srv : ℚ) / ((max dh 1 : Nat) : ℚ)
    base_features pi ++
      [("count", ((min n 100 : Nat) : ℚ)),
       ("srv_count", ((min srv 50 : Nat) : ℚ)),
       ("serror_rate", 0), ("srv_serror_rate", 0),
       ("rerror_rate", 0), ("srv_rerror_rate", 0),
       ("same_srv_rate", same_srv_rate),
       ("diff_srv_rate", diff_srv_rate),
       ("srv_diff_host_rate", 0),
       ("dst_host_count", ((min dh 255 : Nat) : ℚ)),
       ("dst_host_srv_count", ((min srv 255 : Nat) : ℚ)),
       ("dst_host_same_srv_rate", dst_host_same_srv_rate),
       ("dst_host_diff_srv_rate", max 0 (1 - dst_host_same_srv_rate)),
       ("dst_host_same_src_port_rate", 0),
       ("dst_host_srv_diff_host_rate", 0),
       ("dst_host_serror_rate", 0), ("dst_host_srv_serror_rate", 0),
       ("dst_host_rerror_rate", 0), ("dst_host_srv_rerror_rate", 0)]

/-- Value of a named field of a feature dict (first binding wins, as in a
Python dict whose keys are inserted once each); 0 when absent. -/
def featVal (fs : List (String × ℚ)) (k : String) : ℚ :=
  match fs with
  | [] => 0
  | (k', v) :: rest => if k' = k then v else featVal rest k

/-- `WebIDSApp.ai_feature_columns` (lines 66-80): the canonical field order
handed to the model. -/
def ai_feature_columns : List String :=
  ["duration", "protocol_type", "service", "flag", "src_bytes",
   "dst_bytes", "land", "wrong_fragment", "urgent", "hot",
   "num_failed_logins", "logged_in", "num_compromised", "root_shell",
   "su_attempted", "num_root", "num_file_creations", "num_shells",
   "num_access_files", "num_outbound_cmds", "is_host_login",
   "is_guest_login", "count", "srv_count", "serror_rate",
   "srv_serror_rate", "rerror_rate", "srv_rerror_rate",
   "same_srv_rate", "diff_srv_rate", "srv_diff_host_rate",
   "dst_host_count", "dst_host_srv_count", "dst_host_same_srv_rate",
   "dst_host_diff_srv_rate", "dst_host_same_src_port_rate",
   "dst_host_srv_diff_host_rate", "dst_host_serror_rate",
   "dst_host_srv_serror_rate", "dst_host_rerror_rate",
   "dst_host_srv_rerror_rate"]

/-- The opaque predict operation of a loaded classifier artifact: one row of
feature values (in `ai_feature_columns` order) to a predicted label. -/
def Model : Type := List ℚ → String

/-- Python `str.title()` on a list of characters: an alphabetic character is
uppercased after a non-alphabetic position and lowercased otherwise. -/
def titleAux : Bool → List Char → List Char
  | _, [] => []
  | prevAlpha, c :: cs =>
    (if c.isAlpha then (if prevAlpha then c.toLower else c.toUpper) else c) ::
      titleAux c.isAlpha cs

/-- Python `str.title()`. -/
def title (s : String) : String := ⟨titleAux false s.data⟩

/-- Dotted-quad rendering of an IPv4 address (`socket.inet_ntoa`). -/
def ipStr (ip : IPv4) : String :=
  Nat.repr ip.1 ++ "." ++ Nat.repr ip.2.1 ++ "." ++ Nat.repr ip.2.2.1 ++ "." ++
    Nat.repr ip.2.2.2

/-- The `WebIDSApp` attributes read or written by the real-monitoring path,
as an explicit state record: `ML_AVAILABLE`, `ml_model`, `recent_packets`
(the `deque(maxlen=1000)`), the counters, the threat log, and the
`threat_breakdown` defaultdict (total map with default 0). -/
structure IDSState where
  ml_available : Bool
  ml_model : Option Model
  recent_packets : List PacketInfo
  packets_analyzed : Nat
  threats_detected : Nat
  detected_threats_log : List String
  threat_breakdown : String → Nat

/-- `WebIDSApp.load_ai_model` (lines 111-130): returns `False` leaving
`ml_model` unset when ML libraries are unavailable, when the model file does
not exist, or when `joblib.load` raises (the exception is caught); on success
it stores the model and returns `True`.  Result: `(new ml_model, return
value)`; no case propagates an exception. -/
def load_ai_model (ml_available : Bool) (model_exists : Bool)
    (load_result : Option Model) : Option Model × Bool :=
  if ml_available = false then (none, false)
  else if model_exists then
    match load_result with
    | some m => (some m, true)
    | none => (none, false)
  else (none, false)

/-- `WebIDSApp.ai_detect_threats` (lines 237-271): returns `[]` immediately
when no model is loaded or ML is unavailable (before looking at the input, so
also for a malformed / absent `packet_info`); otherwise extracts features
over `self.recent_packets`, reorders them into `ai_feature_columns` (every
column is present, so the padding loop adds nothing), invokes the model, and
reports a threat string when the prediction is not `"normal"`.  The method
reads but never writes the state, which is threaded through unchanged. -/
def ai_detect_threats (s : IDSState) (packet_info : Option PacketInfo) :
    IDSState × List String :=
  match s.ml_model, s.ml_available with
  | none, _ => (s, [])
  | some _, false => (s, [])
  | some m, true =>
    match packet_info with
    | none => (s, [])
    | some pi =>
      let features := extract_packet_features pi s.recent_packets
      let row := ai_feature_columns.map (fun c => featVal features c)
      let prediction := m row
      if prediction = "normal" then (s, [])
      else (s, ["AI-Detected " ++ title prediction ++ " Attack" ++ " from " ++
                ipStr pi.src_ip])

/-- `threat.split(' from ')[0]` — the threat-type prefix of a threat string. -/
def threatType (threat : String) : String :=
  (threat.splitOn " from ").headD threat

/-- Increment of a `defaultdict(int)` entry. -/
def bump (f : String → Nat) (k : String) : String → Nat :=
  fun k' => if k' = k then f k' + 1 else f k'

/-- `WebIDSApp.detect_threats` (lines 363-379): `[]` for a falsy
`packet_info`; otherwise, when a model is loaded, runs `ai_detect_threats`
and increments `threat_breakdown[threat_type]` for each reported threat. -/
def detect_threats (s : IDSState) (packet_info : Option PacketInfo) :
    IDSState × List String :=
  match packet_info with
  | none => (s, [])
  | some pi =>
    match s.ml_model with
    | none => (s, [])
    | some _ =>
      let r := ai_detect_threats s (some pi)
      let s2 := r.2.foldl
        (fun st t => { st with threat_breakdown := bump st.threat_breakdown (threatType t) }) r.1
      (s2, r.2)

/-- One append to `collections.deque(maxlen=1000)` (`recent_packets`,
line 86): the new element goes to the right and elements are dropped from
the left so that at most `maxlen` remain. -/
def dequePush (maxlen : Nat) (buf : List PacketInfo) (x : PacketInfo) :
    List PacketInfo :=
  let b := buf ++ [x]
  b.drop (b.length - maxlen)

/-- One iteration of `WebIDSApp.real_monitoring_loop` (lines 526-545) on a
received byte buffer: count the packet, parse it, and — when parsing
succeeds — append the event to `recent_packets` FIRST (line 535) and run
threat detection on the so-updated state (line 538), accumulating any
threats into the counters and the log.  (`cleanup_tracking_data` touches
none of the modelled fields.) -/
def monitor_step (isWindows : Bool) (s : IDSState) (packet : List Nat)
    (now : ℚ) : IDSState :=
  let s1 := { s with packets_analyzed := s.packets_analyzed + 1 }
  match parse_ip_packet isWindows packet now with
  | none => s1
  | some pi =>
    let s2 := { s1 with recent_packets := dequePush 1000 s1.recent_packets pi }
    let r := detect_threats s2 (some pi)
    if r.2.isEmpty then r.1
    else { r.1 with threats_detected := r.1.threats_detected + r.2.length,
                    detected_threats_log := r.1.detected_threats_log ++ r.2 }

/-- Folding `monitor_step` over a stream of received byte buffers. -/
def monitor_run (isWindows : Bool) (s : IDSState) (packets : List (List Nat))
    (now : ℚ) : IDSState :=
  packets.foldl (fun st p => monitor_step isWindows st p now) s

/-- `IntrusionDetector` of `src/deploy_model.py`. -/
structure IntrusionDetector where
  model : Model

namespace IntrusionDetector

/-- `IntrusionDetector._load_model` (deploy_model.py lines 28-35): on any
failure of `joblib.load` the method catches the exception and RE-RAISES a
new `Exception` — modelled as `Except.error ()`. -/
def load_model (load_result : Option Model) : Except Unit Model :=
  match load_result with
  | some m => Except.ok m
  | none => Except.error ()

/-- `IntrusionDetector.__init__` (deploy_model.py lines 15-26): stores the
result of `_load_model`; a load failure therefore propagates as an
exception out of the constructor (there is no disabled state). -/
def init (load_result : Option Model) : Except Unit IntrusionDetector :=
  match load_model load_result with
  | Except.ok m => Except.ok ⟨m⟩
  | Except.error e => Except.error e

end IntrusionDetector

/-- Folding deque appends over a list of events: the successive
`recent_packets.append(...)` calls of the monitoring loop, buffer-only view. -/
def pushAll (maxlen : Nat) (buf : List PacketInfo) (events : List PacketInfo) :
    List PacketInfo :=
  events.foldl (dequePush maxlen) buf

/-! ## Helper lemmas -/

lemma featVal_extract_nil_count (pi : PacketInfo) :
    featVal (extract_packet_features pi []) "count" = 0 := rfl

lemma featVal_extract_nil_same_srv (pi : PacketInfo) :
    featVal (extract_packet_features pi []) "same_srv_rate" = 0 := rfl

lemma featVal_extract_nil_diff_srv (pi : PacketInfo) :
    featVal (extract_packet_features pi []) "diff_srv_rate" = 0 := rfl

lemma featVal_extract_nil_dh_same (pi : PacketInfo) :
    featVal (extract_packet_features pi []) "dst_host_same_srv_rate" = 0 := rfl

lemma featVal_extract_nil_dh_diff (pi : PacketInfo) :
    featVal (extract_packet_features pi []) "dst_host_diff_srv_rate" = 0 := rfl

lemma featVal_extract_cons_count (pi p : PacketInfo) (l : List PacketInfo) :
    featVal (extract_packet_features pi (p :: l)) "count" =
      ((min (same_src_count pi (p :: l)) 100 : Nat) : ℚ) := rfl

lemma featVal_extract_cons_same_srv (pi p : PacketInfo) (l : List PacketInfo) :
    featVal (extract_packet_features pi (p :: l)) "same_srv_rate" =
      (if 0 < same_src_count pi (p :: l) then
        (same_srv_from_src pi (p :: l) : ℚ) / (same_src_count pi (p :: l) : ℚ)
       else 0) := rfl

lemma featVal_extract_cons_diff_srv (pi p : PacketInfo) (l : List PacketInfo) :
    featVal (extract_packet_features pi (p :: l)) "diff_srv_rate" =
      (if 0 < same_src_count pi (p :: l) then
        ((same_src_count pi (p :: l) : ℚ) - (same_srv_from_src pi (p :: l) : ℚ)) /
          (same_src_count pi (p :: l) : ℚ)
       else 0) := rfl

lemma featVal_extract_cons_dh_same (pi p : PacketInfo) (l : List PacketInfo) :
    featVal (extract_packet_features pi (p :: l)) "dst_host_same_srv_rate" =
      (same_service_count pi (p :: l) : ℚ) /
        ((max (dst_host_connections pi (p :: l)) 1 : Nat) : ℚ) := rfl

lemma featVal_extract_cons_dh_diff (pi p : PacketInfo) (l : List PacketInfo) :
    featVal (extract_packet_features pi (p :: l)) "dst_host_diff_srv_rate" =
      max 0 (1 - (same_service_count pi (p :: l) : ℚ) /
        ((max (dst_host_connections pi (p :: l)) 1 : Nat) : ℚ)) := rfl

/-- The joint same-source-same-service count never exceeds the same-source
count (it counts a subset of the same events). -/
lemma same_srv_from_src_le (pi : PacketInfo) (l : List PacketInfo) :
    same_srv_from_src pi l ≤ same_src_count pi l := by
  apply List.countP_mono_left
  intro p _ h
  simp only [decide_eq_true_eq] at h ⊢
  exact h.1

/-! ## C7: fixed field count and order -/

/-- C7: for every event and every history, `extract_packet_features` emits
exactly the 41 fields of `ai_feature_columns`, in that fixed canonical
order, regardless of the history length. -/
theorem C7_extract_fixed_schema (pi : PacketInfo) (recent : List PacketInfo) :
    (extract_packet_features pi recent).map Prod.fst = ai_feature_columns ∧
    (extract_packet_features pi recent).length = 41 := by
  cases recent with
  | nil => exact ⟨rfl, rfl⟩
  | cons p l => exact ⟨rfl, rfl⟩

/-! ## C3: same/diff service rates sum to one -/

/-- C3: whenever the extracted same-source count (`count`) is positive, the
extracted `same_srv_rate` and `diff_srv_rate` sum to exactly 1; when it is
0, both are 0 (the division is guarded, so no division by zero occurs;
arithmetic is modelled exactly over `ℚ`). -/
theorem C3_srv_rates_sum_to_one (pi : PacketInfo) (recent : List PacketInfo) :
    (0 < featVal (extract_packet_features pi recent) "count" →
      featVal (extract_packet_features pi recent) "same_srv_rate" +
        featVal (extract_packet_features pi recent) "diff_srv_rate" = 1) ∧
    (featVal (extract_packet_features pi recent) "count" = 0 →
      featVal (extract_packet_features pi recent) "same_srv_rate" = 0 ∧
      featVal (extract_packet_features pi recent) "diff_srv_rate" = 0) := by
  cases recent with
  | nil =>
    refine ⟨fun h => absurd h ?_, fun _ => ⟨rfl, rfl⟩⟩
    rw [featVal_extract_nil_count]
    norm_num
  | cons p l =>
    rw [featVal_extract_cons_count, featVal_extract_cons_same_srv,
        featVal_extract_cons_diff_srv]
    constructor
    · intro h
      have hn : 0 < same_src_count pi (p :: l) := by
        have := h
        rw [show ((0 : ℚ) = ((0 : Nat) : ℚ)) from by norm_num] at this
        have h2 := Nat.cast_lt (α := ℚ) |>.mp this
        omega
      rw [if_pos hn, if_pos hn]
      have hQ : ((same_src_count pi (p :: l) : ℚ)) ≠ 0 := by
        exact_mod_cast Nat.pos_iff_ne_zero.mp hn
      field_simp
    · intro h
      have hn : ¬ 0 < same_src_count pi (p :: l) := by
        intro hpos
        have : (0 : ℚ) < ((min (same_src_count pi (p :: l)) 100 : Nat) : ℚ) := by
          have : 0 < min (same_src_count pi (p :: l)) 100 := by omega
          exact_mod_cast this
        rw [h] at this
        exact lt_irrefl 0 this
      rw [if_neg hn, if_neg hn]
      exact ⟨rfl, rfl⟩

/-- C3 witness: concrete instantiations of both branches — a history with a
matching source (count 1, rates summing to 1) and a history with no
matching source (count 0, both rates 0). -/
theorem C3_srv_rates_sum_to_one_witness :
    (featVal (extract_packet_features (⟨(10,0,0,1), (10,0,0,2), 2222, 80, 6, 1⟩)
        [⟨(10,0,0,1), (10,0,0,2), 1111, 80, 6, 0⟩]) "same_srv_rate" +
      featVal (extract_packet_features (⟨(10,0,0,1), (10,0,0,2), 2222, 80, 6, 1⟩)
        [⟨(10,0,0,1), (10,0,0,2), 1111, 80, 6, 0⟩]) "diff_srv_rate" = 1) ∧
    (featVal (extract_packet_features (⟨(1,1,1,1), (2,2,2,2), 6, 25, 6, 0⟩)
        [⟨(9,9,9,9), (9,9,9,8), 5, 80, 6, 0⟩]) "same_srv_rate" = 0 ∧
     featVal (extract_packet_features (⟨(1,1,1,1), (2,2,2,2), 6, 25, 6, 0⟩)
        [⟨(9,9,9,9), (9,9,9,8), 5, 80, 6, 0⟩]) "diff_srv_rate" = 0) := by
  constructor
  · refine (C3_srv_rates_sum_to_one _ _).1 ?_
    rw [featVal_extract_cons_count]
    rw [show same_src_count (⟨(10,0,0,1), (10,0,0,2), 2222, 80, 6, 1⟩)
        [⟨(10,0,0,1), (10,0,0,2), 1111, 80, 6, 0⟩] = 1 from by decide]
    norm_num
  · refine (C3_srv_rates_sum_to_one _ _).2 ?_
    rw [featVal_extract_cons_count]
    rw [show same_src_count (⟨(1,1,1,1), (2,2,2,2), 6, 25, 6, 0⟩)
        [⟨(9,9,9,9), (9,9,9,8), 5, 80, 6, 0⟩] = 0 from by decide]
    norm_num

/-! ## C5: scenario A — three TCP events, ports 80, 80, 443 -/

/-- The three scenario-A events: same source `10.0.0.1`, TCP (protocol 6),
destination ports 80, 80, 443. -/
def pA1 : PacketInfo := ⟨(10,0,0,1), (10,0,0,2), 1111, 80, 6, 0⟩

def pA2 : PacketInfo := ⟨(10,0,0,1), (10,0,0,2), 2222, 80, 6, 1⟩

def pA3 : PacketInfo := ⟨(10,0,0,1), (10,0,0,2), 3333, 443, 6, 2⟩

/-- C5 counterexample: extracting features for the third scenario-A event
over the history of the two prior events gives `count = 2` as claimed, but
`same_srv_rate = 0`, not the claimed 1/2: the third event's destination
port 443 matches neither prior event, so the same-source-same-service count
is 0 of 2. -/
theorem C5_scenario_a_counterexample :
    featVal (extract_packet_features pA3 [pA1, pA2]) "count" = 2 ∧
    featVal (extract_packet_features pA3 [pA1, pA2]) "same_srv_rate" ≠ 1/2 := by
  constructor
  · rw [featVal_extract_cons_count,
        show same_src_count pA3 [pA1, pA2] = 2 from by decide]
    norm_num
  · rw [featVal_extract_cons_same_srv,
        show same_src_count pA3 [pA1, pA2] = 2 from by decide,
        show same_srv_from_src pA3 [pA1, pA2] = 0 from by decide]
    norm_num

/-- C5 (amended): the third scenario-A event's extracted same-source count
is 2 and its extracted same-service rate is 0 (not 1/2). -/
theorem C5_scenario_a_amended :
    featVal (extract_packet_features pA3 [pA1, pA2]) "count" = 2 ∧
    featVal (extract_packet_features pA3 [pA1, pA2]) "same_srv_rate" = 0 := by
  constructor
  · rw [featVal_extract_cons_count,
        show same_src_count pA3 [pA1, pA2] = 2 from by decide]
    norm_num
  · rw [featVal_extract_cons_same_srv,
        show same_src_count pA3 [pA1, pA2] = 2 from by decide,
        show same_srv_from_src pA3 [pA1, pA2] = 0 from by decide]
    norm_num

/-! ## C10: dst_host_same_srv_rate can exceed 1 -/

/-- Two history events towards host `(9,9,9,9)`, port 80. -/
def pB1 : PacketInfo := ⟨(1,1,1,1), (9,9,9,9), 10, 80, 6, 0⟩

def pB2 : PacketInfo := ⟨(2,2,2,2), (9,9,9,9), 11, 80, 6, 0⟩

/-- A new event towards a different host `(8,8,8,8)`, same port 80. -/
def pB0 : PacketInfo := ⟨(3,3,3,3), (8,8,8,8), 12, 80, 6, 0⟩

/-- C10: the emitted `dst_host_same_srv_rate` is not bounded by 1: for
`pB0` against the history `[pB1, pB2]`, the numerator counts the two window
events sharing destination port 80 while the denominator counts the zero
window events sharing destination address `(8,8,8,8)` (clamped to 1), so
the rate is 2 > 1. -/
theorem C10_dst_host_same_srv_rate_exceeds_one :
    featVal (extract_packet_features pB0 [pB1, pB2]) "dst_host_same_srv_rate" = 2 ∧
    1 < featVal (extract_packet_features pB0 [pB1, pB2]) "dst_host_same_srv_rate" := by
  have h : featVal (extract_packet_features pB0 [pB1, pB2]) "dst_host_same_srv_rate" = 2 := by
    rw [featVal_extract_cons_dh_same,
        show same_service_count pB0 [pB1, pB2] = 2 from by decide,
        show dst_host_connections pB0 [pB1, pB2] = 0 from by decide]
    norm_num
  exact ⟨h, by rw [h]; norm_num⟩

/-! ## C8: diff-service rates versus 1 − same-service rate -/

/-- A history event unrelated to the probe event below. -/
def pC1 : PacketInfo := ⟨(9,9,9,9), (9,9,9,8), 5, 80, 6, 0⟩

/-- A new event whose source matches nothing in the history. -/
def pC0 : PacketInfo := ⟨(1,1,1,1), (2,2,2,2), 6, 25, 6, 0⟩

/-- C8 counterexample: for an event whose source address matches no window
event (`same_src_count = 0`) the code emits `same_srv_rate = 0` AND
`diff_srv_rate = 0`, whereas "1 minus the same-service rate, floored at 0"
would be 1 — so the claimed identity fails for this event and history. -/
theorem C8_diff_srv_rate_counterexample :
    featVal (extract_packet_features pC0 [pC1]) "same_srv_rate" = 0 ∧
    featVal (extract_packet_features pC0 [pC1]) "diff_srv_rate" = 0 ∧
    featVal (extract_packet_features pC0 [pC1]) "diff_srv_rate" ≠
      max 0 (1 - featVal (extract_packet_features pC0 [pC1]) "same_srv_rate") := by
  have h1 : featVal (extract_packet_features pC0 [pC1]) "same_srv_rate" = 0 := by
    rw [featVal_extract_cons_same_srv,
        show same_src_count pC0 [pC1] = 0 from by decide]
    norm_num
  have h2 : featVal (extract_packet_features pC0 [pC1]) "diff_srv_rate" = 0 := by
    rw [featVal_extract_cons_diff_srv,
        show same_src_count pC0 [pC1] = 0 from by decide]
    norm_num
  refine ⟨h1, h2, ?_⟩
  rw [h1, h2]
  norm_num

/-- C8 (amended): for a non-empty history `dst_host_diff_srv_rate` equals
`max 0 (1 − dst_host_same_srv_rate)` exactly as coded (the code computes
literally this expression, so the identity is float-exact); both emitted
diff rates are never negative for any event and history; but when the
extracted same-source count is 0 (in particular for the empty history) the
emitted `diff_srv_rate` is 0, not 1.  For a positive same-source count `n`
the code emits the quotient `(n − a)/n`, which agrees with
`1 − same_srv_rate` only up to IEEE rounding (e.g. they differ by one ulp
at `n = 3, a = 1`), so no exact identity with `1 − same_srv_rate` is
asserted. -/
theorem C8_diff_srv_rates_amended (pi : PacketInfo) (recent : List PacketInfo) :
    (recent ≠ [] →
      featVal (extract_packet_features pi recent) "dst_host_diff_srv_rate" =
        max 0 (1 - featVal (extract_packet_features pi recent) "dst_host_same_srv_rate")) ∧
    0 ≤ featVal (extract_packet_features pi recent) "diff_srv_rate" ∧
    0 ≤ featVal (extract_packet_features pi recent) "dst_host_diff_srv_rate" ∧
    (featVal (extract_packet_features pi recent) "count" = 0 →
      featVal (extract_packet_features pi recent) "diff_srv_rate" = 0) := by
  cases recent with
  | nil =>
    exact ⟨fun h => absurd rfl h, le_refl 0, le_refl 0, fun _ => rfl⟩
  | cons p l =>
    have hle := same_srv_from_src_le pi (p :: l)
    rw [featVal_extract_cons_count, featVal_extract_cons_diff_srv,
        featVal_extract_cons_dh_same, featVal_extract_cons_dh_diff]
    refine ⟨fun _ => rfl, ?_, le_max_left 0 _, ?_⟩
    · by_cases hn : 0 < same_src_count pi (p :: l)
      · rw [if_pos hn]
        apply div_nonneg
        · have : (same_srv_from_src pi (p :: l) : ℚ) ≤ (same_src_count pi (p :: l) : ℚ) := by
            exact_mod_cast hle
          linarith
        · positivity
      · rw [if_neg hn]
    · intro h
      have hn : ¬ 0 < same_src_count pi (p :: l) := by
        intro hpos
        have h2 : (0 : ℚ) < ((min (same_src_count pi (p :: l)) 100 : Nat) : ℚ) := by
          have : 0 < min (same_src_count pi (p :: l)) 100 := by omega
          exact_mod_cast this
        rw [h] at h2
        exact lt_irrefl 0 h2
      rw [if_neg hn]

/-- C8 witness: both hypotheses instantiated concretely — a non-empty
history for the host-based floor identity, and an event with no
same-source window event for the zero case. -/
theorem C8_diff_srv_rates_amended_witness :
    (featVal (extract_packet_features pB0 [pB1, pB2]) "dst_host_diff_srv_rate" =
       max 0 (1 - featVal (extract_packet_features pB0 [pB1, pB2]) "dst_host_same_srv_rate")) ∧
    featVal (extract_packet_features pC0 [pC1]) "diff_srv_rate" = 0 := by
  constructor
  · exact (C8_diff_srv_rates_amended pB0 [pB1, pB2]).1 (by simp)
  · refine (C8_diff_srv_rates_amended pC0 [pC1]).2.2.2 ?_
    rw [featVal_extract_cons_count,
        show same_src_count pC0 [pC1] = 0 from by decide]
    norm_num

/-! ## C4: bounded FIFO history -/

lemma dequePush_eq (m : Nat) (buf : List PacketInfo) (x : PacketInfo) :
    dequePush m buf x = (buf ++ [x]).drop (buf.length + 1 - m) := by
  simp [dequePush]

lemma length_dequePush (m : Nat) (buf : List PacketInfo) (x : PacketInfo) :
    (dequePush m buf x).length = min m (buf.length + 1) := by
  simp [dequePush]
  omega

/-- Folding deque appends from a buffer within capacity keeps exactly the
trailing `m` elements of the combined sequence. -/
lemma pushAll_eq (m : Nat) (L : List PacketInfo) :
    ∀ buf : List PacketInfo, buf.length ≤ m →
      pushAll m buf L = (buf ++ L).drop (buf.length + L.length - m) := by
  induction L with
  | nil =>
    intro buf h
    simp only [pushAll, List.foldl_nil, List.append_nil, List.length_nil,
      Nat.add_zero]
    rw [Nat.sub_eq_zero_of_le h, List.drop_zero]
  | cons x L ih =>
    intro buf h
    have hstep : pushAll m buf (x :: L) = pushAll m (dequePush m buf x) L := rfl
    have hle : (dequePush m buf x).length ≤ m := by
      rw [length_dequePush]
      omega
    rw [hstep, ih _ hle, dequePush_eq]
    have hk : buf.length + 1 - m ≤ (buf ++ [x]).length := by
      rw [List.length_append, List.length_singleton]
      omega
    rw [← List.drop_append_of_le_length hk, List.drop_drop,
        List.append_assoc, List.singleton_append]
    congr 1
    simp only [List.length_drop, List.length_append, List.length_cons,
      List.length_singleton, List.length_nil]
    omega

/-- C4: the rolling history deque never exceeds its capacity of 1000, and
appending to a full buffer evicts from the front: after 1001 appends
starting from empty, the length is exactly 1000, the surviving buffer is
the last 1000 events, and the first-inserted event is gone. -/
theorem C4_history_capacity_fifo :
    (∀ events : List PacketInfo, (pushAll 1000 [] events).length ≤ 1000) ∧
    (∀ (e0 : PacketInfo) (es : List PacketInfo), es.length = 1000 →
      pushAll 1000 [] (e0 :: es) = es) ∧
    (∀ (e0 : PacketInfo) (es : List PacketInfo), es.length = 1000 → e0 ∉ es →
      (pushAll 1000 [] (e0 :: es)).length = 1000 ∧
        e0 ∉ pushAll 1000 [] (e0 :: es)) := by
  have key : ∀ L : List PacketInfo,
      pushAll 1000 [] L = L.drop (L.length - 1000) := by
    intro L
    have := pushAll_eq 1000 L [] (by simp)
    simpa using this
  have drop_one : ∀ (e0 : PacketInfo) (es : List PacketInfo), es.length = 1000 →
      pushAll 1000 [] (e0 :: es) = es := by
    intro e0 es hlen
    rw [key]
    simp [hlen]
  refine ⟨?_, drop_one, ?_⟩
  · intro events
    rw [key, List.length_drop]
    omega
  · intro e0 es hlen hmem
    rw [drop_one e0 es hlen]
    exact ⟨hlen, hmem⟩

/-- A concrete event stream of 1001 pairwise relevantly-distinct events. -/
def mkEv (i : Nat) : PacketInfo := ⟨(10,0,0,1), (10,0,0,2), i, 80, 6, 0⟩

def esW : List PacketInfo := (List.range 1000).map mkEv

/-- C4 witness: the concrete 1000-event history `esW` and the extra event
`mkEv 1000` instantiate the capacity-plus-one scenario. -/
theorem C4_history_capacity_fifo_witness :
    esW.length = 1000 ∧ mkEv 1000 ∉ esW ∧
    (pushAll 1000 [] (mkEv 1000 :: esW)).length = 1000 ∧
    mkEv 1000 ∉ pushAll 1000 [] (mkEv 1000 :: esW) := by
  have h1 : esW.length = 1000 := by simp [esW]
  have h2 : mkEv 1000 ∉ esW := by
    intro hmem
    simp only [esW, List.mem_map, List.mem_range, mkEv] at hmem
    obtain ⟨i, hi, he⟩ := hmem
    have : i = 1000 := by
      have := congrArg PacketInfo.src_port he
      simpa using this
    omega
  have h3 := (C4_history_capacity_fifo.2.2) (mkEv 1000) esW h1 h2
  exact ⟨h1, h2, h3.1, h3.2⟩

/-! ## C2: packet ingestion never raises, rejection characterization -/

/-- C2 (amended): the parser is a total function (the Python body is wrapped
in `try/except` returning `None`; the embedding is total, so no exception
escapes) and it returns a parsed record exactly when the 20-byte IP-header
slice for the capture mode is complete and its version nibble is 4; in
every other case — buffer too short for the IP header, or a non-IPv4
version — it returns `None`.  (A packet with a complete IPv4 header but a
truncated transport header is NOT rejected: ports default to 0, see the
counterexample.) -/
theorem C2_parse_rejects_iff (mode : Bool) (packet : List Nat) (now : ℚ) :
    (parse_ip_packet mode packet now).isSome ↔
      ((ipHeaderSlice mode packet).length = 20 ∧
       (ipHeaderSlice mode packet).getD 0 0 / 16 = 4) := by
  unfold parse_ip_packet
  by_cases h1 : (ipHeaderSlice mode packet).length = 20
  · by_cases h2 : (ipHeaderSlice mode packet).getD 0 0 / 16 = 4
    · simp [h1, h2]
    · simp [h1, h2]
  · simp [h1]

/-- A 34-byte Linux-mode capture: ethernet header (14 bytes) plus a complete
IPv4/TCP header (version 4, ihl 5, protocol 6, `10.0.0.1 → 10.0.0.2`) with
NO transport-header bytes at all. -/
def pktShortTCP : List Nat :=
  [0,0,0,0,0,0,0,0,0,0,0,0,0,0] ++
  [69, 0, 0, 20, 0, 0, 0, 0, 64, 6, 0, 0, 10, 0, 0, 1, 10, 0, 0, 2]

/-- C2 counterexample: this short TCP buffer (complete IP header, absent
transport header) is a malformed/truncated TCP packet, yet the parser does
not reject it: it returns a parsed record with both ports defaulted to 0,
refuting "malformed or short buffers yield a rejection result (None)" as a
universal statement. -/
theorem C2_short_tcp_not_rejected :
    parse_ip_packet false pktShortTCP 7 =
      some ⟨(10,0,0,1), (10,0,0,2), 0, 0, 6, 7⟩ := rfl

/-! ## Frame lemmas for the detection path -/

/-- `ai_detect_threats` returns the state unchanged in every branch (the
Python method only reads `self`). -/
lemma ai_detect_threats_state (s : IDSState) (v : Option PacketInfo) :
    (ai_detect_threats s v).1 = s := by
  unfold ai_detect_threats
  split
  · rfl
  · rfl
  · split
    · rfl
    · simp [apply_ite Prod.fst]

/-- The `threat_breakdown` bumping fold of `detect_threats` touches no other
state field. -/
lemma foldl_bump_frame (ts : List String) :
    ∀ s0 : IDSState,
      ((ts.foldl (fun st t =>
          { st with threat_breakdown := bump st.threat_breakdown (threatType t) })
        s0).recent_packets = s0.recent_packets ∧
       (ts.foldl (fun st t =>
          { st with threat_breakdown := bump st.threat_breakdown (threatType t) })
        s0).packets_analyzed = s0.packets_analyzed ∧
       (ts.foldl (fun st t =>
          { st with threat_breakdown := bump st.threat_breakdown (threatType t) })
        s0).threats_detected = s0.threats_detected ∧
       (ts.foldl (fun st t =>
          { st with threat_breakdown := bump st.threat_breakdown (threatType t) })
        s0).detected_threats_log = s0.detected_threats_log) := by
  induction ts with
  | nil => intro s0; exact ⟨rfl, rfl, rfl, rfl⟩
  | cons t ts ih => intro s0; simpa using ih _

/-- `detect_threats` preserves the history, the packet counter, the threat
counter and the log (it only updates `threat_breakdown`). -/
lemma detect_threats_frame (s : IDSState) (v : Option PacketInfo) :
    (detect_threats s v).1.recent_packets = s.recent_packets ∧
    (detect_threats s v).1.threats_detected = s.threats_detected ∧
    (detect_threats s v).1.detected_threats_log = s.detected_threats_log := by
  unfold detect_threats
  cases v with
  | none => exact ⟨rfl, rfl, rfl⟩
  | some pi =>
    cases hm : s.ml_model with
    | none => exact ⟨rfl, rfl, rfl⟩
    | some m =>
      have hstate : (ai_detect_threats s (some pi)).1 = s :=
        ai_detect_threats_state s (some pi)
      have hfold := foldl_bump_frame (ai_detect_threats s (some pi)).2
        (ai_detect_threats s (some pi)).1
      exact ⟨hfold.1.trans (congrArg IDSState.recent_packets hstate),
             hfold.2.2.1.trans (congrArg IDSState.threats_detected hstate),
             hfold.2.2.2.trans (congrArg IDSState.detected_threats_log hstate)⟩

/-- Across one monitoring-loop iteration the rolling history changes
exactly by the loop's own append of the parsed event, and not at all when
parsing rejects the packet. -/
lemma monitor_step_recent (mode : Bool) (s : IDSState) (packet : List Nat)
    (now : ℚ) :
    (monitor_step mode s packet now).recent_packets =
      match parse_ip_packet mode packet now with
      | some pi => dequePush 1000 s.recent_packets pi
      | none => s.recent_packets := by
  unfold monitor_step
  cases hp : parse_ip_packet mode packet now with
  | none => rfl
  | some pi =>
    simp only []
    have hframe := detect_threats_frame
      { s with packets_analyzed := s.packets_analyzed + 1,
               recent_packets := dequePush 1000 s.recent_packets pi } (some pi)
    split
    · exact hframe.1
    · exact hframe.1

/-! ## C9: the detection path never mutates the rolling history -/

/-- C9: feature extraction is a pure function of its arguments (it copies
the window with `list(...)[-100:]`), `ai_detect_threats` returns the state
untouched, `detect_threats` preserves the rolling history, and the history
changes across a monitoring-loop iteration exactly by the loop's own
explicit append of the parsed event (and not at all when parsing rejects
the packet). -/
theorem C9_history_only_mutated_by_append :
    (∀ (s : IDSState) (v : Option PacketInfo), (ai_detect_threats s v).1 = s) ∧
    (∀ (s : IDSState) (v : Option PacketInfo),
      (detect_threats s v).1.recent_packets = s.recent_packets) ∧
    (∀ (mode : Bool) (s : IDSState) (packet : List Nat) (now : ℚ),
      (monitor_step mode s packet now).recent_packets =
        match parse_ip_packet mode packet now with
        | some pi => dequePush 1000 s.recent_packets pi
        | none => s.recent_packets) :=
  ⟨ai_detect_threats_state, fun s v => (detect_threats_frame s v).1,
   monitor_step_recent⟩

/-! ## C6: the history consulted during detection -/

/-- The intermediate state of a monitoring-loop iteration at the moment
`detect_threats` is invoked: packet counted, the parsed event ALREADY
appended to the rolling history. -/
def stepState (s : IDSState) (pi : PacketInfo) : IDSState :=
  { s with
      packets_analyzed := s.packets_analyzed + 1,
      recent_packets := dequePush 1000 s.recent_packets pi }

/-- The new event always survives its own append (the deque drops from the
left, never the just-appended right end, its capacity being positive). -/
lemma self_mem_dequePush (buf : List PacketInfo) (x : PacketInfo) :
    x ∈ dequePush 1000 buf x := by
  rw [dequePush_eq, List.drop_append_of_le_length (by omega)]
  simp

/-- C6 (amended): during a monitoring-loop iteration the history consulted
by threat detection is the PUSH-UPDATED buffer — it contains the current
event itself, appended (line 535) before `detect_threats` runs (line 538) —
so the window is the events processed before the current one PLUS the
current one, not the prior events alone. -/
theorem C6_detection_window_includes_current (mode : Bool) (s : IDSState)
    (packet : List Nat) (now : ℚ) (pi : PacketInfo)
    (hp : parse_ip_packet mode packet now = some pi) :
    (monitor_step mode s packet now).recent_packets =
      dequePush 1000 s.recent_packets pi ∧
    pi ∈ (monitor_step mode s packet now).recent_packets ∧
    (monitor_step mode s packet now).detected_threats_log =
      s.detected_threats_log ++
        (detect_threats (stepState s pi) (some pi)).2 := by
  have hrec : (monitor_step mode s packet now).recent_packets =
      dequePush 1000 s.recent_packets pi := by
    have h := monitor_step_recent mode s packet now
    rw [hp] at h
    exact h
  refine ⟨hrec, by rw [hrec]; exact self_mem_dequePush _ _, ?_⟩
  have hlog : (detect_threats (stepState s pi) (some pi)).1.detected_threats_log
      = s.detected_threats_log :=
    (detect_threats_frame (stepState s pi) (some pi)).2.2
  unfold monitor_step
  rw [hp]
  simp only [stepState] at hlog ⊢
  split
  · rename_i hempty
    rw [List.isEmpty_iff.mp hempty, List.append_nil]
    exact hlog
  · exact congrArg (fun l => l ++ _) hlog

/-- A model that flags an event whenever the extracted `count` feature
(field 22 of the canonical order) is at least 1. -/
def mW : Model := fun row => if 1 ≤ row.getD 22 0 then "neptune" else "normal"

/-- Fresh monitoring state with `mW` loaded and an empty history. -/
def s0W : IDSState := ⟨true, some mW, [], 0, 0, [], fun _ => 0⟩

/-- A well-formed Linux-mode IPv4/TCP capture `10.0.0.1:1234 → 10.0.0.2:80`. -/
def pktW : List Nat :=
  [0,0,0,0,0,0,0,0,0,0,0,0,0,0] ++
  [69, 0, 0, 40, 0, 0, 0, 0, 64, 6, 0, 0, 10, 0, 0, 1, 10, 0, 0, 2] ++
  [4, 210, 0, 80]

/-- The event `pktW` parses to. -/
def piW : PacketInfo := ⟨(10,0,0,1), (10,0,0,2), 1234, 80, 6, 5⟩

/-- C6 counterexample: on a FRESH state (no events processed before), one
loop iteration on `pktW` detects a threat — the model `mW` fires on
`count ≥ 1` — which is only possible because the consulted window already
contained the current event; detection over the history of the events
actually processed before (the empty history, as the claim reads) finds
nothing. -/
theorem C6_causal_counterexample :
    parse_ip_packet false pktW 5 = some piW ∧
    (monitor_step false s0W pktW 5).threats_detected = 1 ∧
    (detect_threats s0W (some piW)).2 = [] := ⟨rfl, rfl, rfl⟩

/-- C6 witness: the amended statement instantiated on the fresh state and
the concrete packet `pktW`. -/
theorem C6_detection_window_includes_current_witness :
    (monitor_step false s0W pktW 5).recent_packets =
      dequePush 1000 s0W.recent_packets piW ∧
    piW ∈ (monitor_step false s0W pktW 5).recent_packets ∧
    (monitor_step false s0W pktW 5).detected_threats_log =
      s0W.detected_threats_log ++
        (detect_threats (stepState s0W piW) (some piW)).2 :=
  C6_detection_window_includes_current false s0W pktW 5 piW rfl

/-! ## C1: disabled classifier -/

/-- C1 counterexample: constructing the standalone `IntrusionDetector`
(`src/deploy_model.py`) when the model cannot be loaded — e.g. a
nonexistent model path, on which `joblib.load` raises — does NOT enter a
disabled state: `_load_model` catches the load error and re-raises, so the
constructor itself raises, refuting "leaves it in the Disabled state
without raising any exception" for this classifier. -/
theorem C1_intrusion_detector_init_raises :
    IntrusionDetector.init none = Except.error () := rfl

/-- C1 (amended): the web app's classifier (`WebIDSApp.load_ai_model`) with
a nonexistent model path stores no model and returns `False` without
raising, and every classification call on the disabled state —
`ai_detect_threats` / `detect_threats` with `ml_model = None` — returns
"no result" (`[]`) for any input, including a malformed (`None`) one,
leaving the state untouched; the standalone `IntrusionDetector` of
`deploy_model.py`, however, raises from its constructor on load failure
instead of entering a disabled state. -/
theorem C1_disabled_classifier (s : IDSState) (v : Option PacketInfo)
    (hm : s.ml_model = none) :
    (∀ (avail : Bool) (lr : Option Model),
        load_ai_model avail false lr = (none, false)) ∧
    ai_detect_threats s v = (s, []) ∧
    detect_threats s v = (s, []) ∧
    IntrusionDetector.init none = Except.error () := by
  refine ⟨?_, ?_, ?_, rfl⟩
  · intro avail lr
    cases avail <;> rfl
  · unfold ai_detect_threats
    rw [hm]
  · unfold detect_threats
    cases v with
    | none => rfl
    | some pi => rw [hm]

/-- Monitoring state whose classifier failed to load. -/
def sD : IDSState := ⟨true, none, [], 0, 0, [], fun _ => 0⟩

/-- C1 witness: the disabled state `sD` instantiates the amended claim, on
a malformed (`none`) input and on a well-formed event alike. -/
theorem C1_disabled_classifier_witness :
    ai_detect_threats sD none = (sD, []) ∧
    detect_threats sD none = (sD, []) ∧
    ai_detect_threats sD (some pA1) = (sD, []) ∧
    detect_threats sD (some pA1) = (sD, []) :=
  ⟨(C1_disabled_classifier sD none rfl).2.1,
   (C1_disabled_classifier sD none rfl).2.2.1,
   (C1_disabled_classifier sD (some pA1) rfl).2.1,
   (C1_disabled_classifier sD (some pA1) rfl).2.2.1⟩

end AIIDS
